import Mathlib

/-!
Shallow embedding of the supervised-restart loop and the HTTP health
endpoints of `src/main.py` (function `run_discord_bot` and the Flask
handlers defined inside `run_web_server`).

Timestamps are modelled as natural numbers of seconds (the Python code
uses `datetime.now()` and compares `.total_seconds()` of differences).
The random jitter factor is modelled as a rational number.  The string
messages stored in the global `fatal_error_state` are modelled together
with the spec-level error kind that the assignment site corresponds to;
the Python substring test `"Import error" in state` is embedded as an
executable substring test on the stored message.
-/

namespace BotSupervisor

/-- The spec-level classification of a fatal error.  Each constructor
corresponds to exactly one assignment site of `fatal_error_state` in
`run_discord_bot`. -/
inductive ErrorKind
  | importFailure
  | missingToken
  | invalidToken
  | configurationError
deriving DecidableEq, Repr

/-- A fatal-error descriptor: the kind together with the message string
that the code stores in `fatal_error_state`. -/
structure ErrorDescriptor where
  kind : ErrorKind
  message : String
deriving DecidableEq, Repr

/-- The shared supervisor state of `main.py`:
`fatal_error_state`, `last_fatal_error_time`, the loop-local
`retry_count`, the global `current_bot_instance` (modelled as the boolean
"a live instance is published"), and whether the `bot`/`discord` modules
are currently imported (the locals `bot_module` and `discord_module` are
both non-None). -/
structure SupState where
  fatalError : Option ErrorDescriptor
  fatalErrorSince : Option Nat
  retryCount : Nat
  currentHandle : Bool
  modulesLoaded : Bool
deriving DecidableEq, Repr

/-- Is the first list a prefix of the second?  Helper for the substring
test. -/
def prefixTest : List Char → List Char → Bool
  | [], _ => true
  | _ :: _, [] => false
  | p :: ps, c :: cs => p == c && prefixTest ps cs

/-- Does `pat` occur as a contiguous sublist of the second argument? -/
def containsAux (pat : List Char) : List Char → Bool
  | [] => prefixTest pat []
  | c :: cs => prefixTest pat (c :: cs) || containsAux pat cs

/-- Executable substring test, embedding Python's `pat in s`. -/
def strContains (s pat : String) : Bool := containsAux pat.toList s.toList

/-- Outcome of the environment during one recovery preflight attempt:
whether the re-import of `bot`/`discord` succeeds (raises otherwise),
whether `bot_module.check_token()` returns true, and whether the
`create_bot` + `login` + `close` handshake succeeds (raises otherwise). -/
structure PreflightEnv where
  reimportOk : Bool
  tokenPresent : Bool
  loginOk : Bool
deriving DecidableEq, Repr

/-- How one blocking connection attempt (`create_bot` + `run`) ends:
a normal return, an exception caught by the `except BotConfigurationError`
clause, or an exception caught by the generic `except Exception` clause —
split into the `LoginFailure` type-name case and every other (transient)
case.  Which concrete exception lands in which clause is the
environment's choice (in particular, when the initial import failed,
`BotConfigurationError` is aliased to `Exception` and the first clause
catches everything).  The payload is the exception text. -/
inductive RunOutcome
  | normalReturn
  | configErr (msg : String)
  | loginFailure (msg : String)
  | transientErr (msg : String)
deriving DecidableEq, Repr

/-- Environment for one iteration of the `while not shutdown_event.is_set()`
loop: the current wall-clock second, the shutdown flag (held constant over
the iteration), the preflight environment, the outcome of the connection
attempt if one is made, and the sampled `random.uniform(0.8, 1.2)` jitter. -/
structure IterEnv where
  now : Nat
  shutdown : Bool
  pre : PreflightEnv
  outcome : RunOutcome
  jitter : ℚ
deriving DecidableEq, Repr

/-- `base_delay = 2` in `run_discord_bot`. -/
def baseDelay : Nat := 2

/-- `max_delay = 300` in `run_discord_bot`. -/
def maxDelay : Nat := 300

/-- The un-jittered backoff: `min(base_delay * (2 ** min(retry_count, 8)), max_delay)`. -/
def backoffBase (retry : Nat) : Nat := min (baseDelay * 2 ^ (min retry 8)) maxDelay

/-- The jittered backoff delay `wait_time * jitter` computed before the
between-attempt sleep. -/
def backoffDelay (retry : Nat) (jitter : ℚ) : ℚ := (backoffBase retry : ℚ) * jitter

/-- The recovery preflight of `run_discord_bot` (lines 92-133), run while
holding `fatal_error_lock` once the fatal error is older than 600 s.
Step 1: if the stored message contains "Import error", re-import
`bot`/`discord`; a failing re-import raises, is caught by the outer
`except`, and leaves everything unchanged.  Step 2: if both modules are
available, check the token.  Step 3: create a test bot and do a
login/close handshake; only if it succeeds are `fatal_error_state`,
`last_fatal_error_time` cleared and `retry_count` reset, in the same
critical section.  Any other failure only logs. -/
def runPreflight (s : SupState) (d : ErrorDescriptor) (env : PreflightEnv) : SupState :=
  if strContains d.message "Import error" && !env.reimportOk then
    s
  else
    let modules := if strContains d.message "Import error" then true else s.modulesLoaded
    if modules && env.tokenPresent && env.loginOk then
      { s with fatalError := none, fatalErrorSince := none, retryCount := 0,
               modulesLoaded := modules }
    else
      { s with modulesLoaded := modules }

/-- Whether the preflight will clear the fatal state, as a function of the
state and environment; matches the success path of `runPreflight`. -/
def preflightSucceeds (s : SupState) (d : ErrorDescriptor) (env : PreflightEnv) : Bool :=
  (if strContains d.message "Import error" then env.reimportOk else s.modulesLoaded)
    && env.tokenPresent && env.loginOk

/-- Observable result of one loop iteration: the state after the
`finally` block, whether a bot instance was constructed and `run` called,
whether the recovery preflight was entered, the jittered backoff delay
when the backoff path was taken, the whole seconds slept, and whether a
`break` statement exited the loop. -/
structure IterResult where
  state : SupState
  connectAttempted : Bool
  preflightAttempted : Bool
  backoff : Option ℚ
  sleptSeconds : Nat
  breaks : Bool
deriving Repr

/-- The shared tail of the two `except` branches that reach the backoff
code (lines 182-199): check shutdown (break), compute
`min(base_delay * 2^min(retry_count,8), max_delay) * uniform(0.8,1.2)`,
sleep `int(wait_time)` seconds in 1 s steps; the `finally` then clears
`current_bot_instance` under `bot_status_lock`. -/
def backoffExit (s : SupState) (env : IterEnv) (didPreflight attempted : Bool) : IterResult :=
  if env.shutdown then
    { state := { s with currentHandle := false }, connectAttempted := attempted,
      preflightAttempted := didPreflight, backoff := none, sleptSeconds := 0,
      breaks := true }
  else
    let w : ℚ := backoffDelay s.retryCount env.jitter
    { state := { s with currentHandle := false }, connectAttempted := attempted,
      preflightAttempted := didPreflight, backoff := some w,
      sleptSeconds := w.floor.toNat, breaks := false }

/-- One iteration of the supervisor loop body of `run_discord_bot`
(lines 79-203).  Under `fatal_error_lock` the fatal state is read and, if
a fatal error with a recorded time is more than 600 s old, the recovery
preflight runs; the fatal state is then re-read.  If still fatal, sleep
30 s in 1 s shutdown-aware steps and `continue` (the `finally` still
clears the handle).  Otherwise, if the modules are unavailable an
`Exception` is raised into the generic handler; else a fresh bot is
created, published as `current_bot_instance` under `bot_status_lock`, and
`run` is invoked, its ending dispatched on `env.outcome`. -/
def supervisorStep (s : SupState) (env : IterEnv) : IterResult :=
  let tryRecover : Bool :=
    match s.fatalError, s.fatalErrorSince with
    | some _, some t => env.now - t > 600
    | _, _ => false
  let s1 : SupState :=
    match s.fatalError, s.fatalErrorSince with
    | some d, some t => if env.now - t > 600 then runPreflight s d env.pre else s
    | _, _ => s
  if s1.fatalError.isSome then
    { state := { s1 with currentHandle := false }, connectAttempted := false,
      preflightAttempted := tryRecover, backoff := none,
      sleptSeconds := if env.shutdown then 0 else 30, breaks := false }
  else if !s1.modulesLoaded then
    backoffExit { s1 with retryCount := s1.retryCount + 1 } env tryRecover false
  else
    match env.outcome with
    | .normalReturn =>
        { state := { s1 with currentHandle := false }, connectAttempted := true,
          preflightAttempted := tryRecover, backoff := none, sleptSeconds := 0,
          breaks := false }
    | .configErr m =>
        { state := { s1 with
              fatalError := some ⟨.configurationError, "Configuration error: " ++ m⟩,
              fatalErrorSince := some env.now, currentHandle := false },
          connectAttempted := true, preflightAttempted := tryRecover,
          backoff := none, sleptSeconds := 0, breaks := false }
    | .loginFailure m =>
        backoffExit { s1 with
              fatalError := some ⟨.invalidToken, "Invalid token: " ++ m⟩,
              fatalErrorSince := some env.now } env tryRecover true
    | .transientErr _ =>
        backoffExit { s1 with retryCount := s1.retryCount + 1 } env tryRecover true

/-- Result of the startup section of `run_discord_bot` (lines 48-77):
the initial shared state plus whether `bot_module.check_token()` was
actually invoked. -/
structure StartupResult where
  state : SupState
  tokenChecked : Bool
deriving Repr

/-- The startup section of `run_discord_bot` (lines 48-77).
`importBotOk` is whether `import bot as bot_module` succeeds (binding the
local `bot_module`); `importRestOk` is whether the following
`from bot import BotConfigurationError` and `import discord` also
succeed.  Any `ImportError` in the try block records an ImportFailure
descriptor.  The token check `if bot_module and not bot_module.check_token()`
only calls `check_token` when `bot_module` is bound, and on a missing
token overwrites the fatal state with the MissingToken descriptor. -/
def startup (importBotOk importRestOk tokenPresent : Bool) (importErrMsg : String)
    (now : Nat) : StartupResult :=
  let importOk := importBotOk && importRestOk
  let fatal0 : Option ErrorDescriptor :=
    if importOk then none
    else some ⟨.importFailure, "Import error: " ++ importErrMsg⟩
  let since0 : Option Nat := if importOk then none else some now
  if importBotOk && !tokenPresent then
    { state := { fatalError := some ⟨.missingToken, "Token Discord manquant"⟩,
                 fatalErrorSince := some now, retryCount := 0,
                 currentHandle := false, modulesLoaded := importOk },
      tokenChecked := importBotOk }
  else
    { state := { fatalError := fatal0, fatalErrorSince := since0, retryCount := 0,
                 currentHandle := false, modulesLoaded := importOk },
      tokenChecked := importBotOk }

/-- `grace_period = 120` in `health_check`. -/
def gracePeriod : Nat := 120

/-- The `bot_status` dictionary of `run_web_server`, restricted to the
fields the health logic reads and writes (`bot_name`, `servers` and
`last_update` are display-only strings and are omitted). -/
structure BotStatus where
  online : Bool
  firstOnlineTime : Option Nat
  offlineSince : Option Nat
  reconnectCount : Nat
deriving DecidableEq, Repr

/-- `update_bot_status` (lines 467-516), non-exception path.  With a
fatal error present the bot is marked offline (recording `offline_since`
if it was online).  Otherwise, if the published instance is ready the bot
is marked online (recording `first_online_time` on the first transition
and clearing `offline_since`); if not ready the bot is marked offline,
recording `offline_since = now` on an online-to-offline transition and
bumping `reconnect_count`, or defaulting `offline_since` to
`app_start_time` when the bot was never seen online. -/
def update_bot_status (bs : BotStatus) (fatal : Option ErrorDescriptor)
    (instanceReady : Bool) (now appStart : Nat) : BotStatus :=
  if fatal.isSome then
    { bs with
      offlineSince := if bs.online then some now else bs.offlineSince,
      online := false }
  else if instanceReady then
    { online := true,
      firstOnlineTime :=
        if !bs.online && bs.firstOnlineTime.isNone then some now else bs.firstOnlineTime,
      offlineSince := if bs.online then bs.offlineSince else none,
      reconnectCount := bs.reconnectCount }
  else
    { online := false,
      firstOnlineTime := bs.firstOnlineTime,
      offlineSince :=
        if bs.online then some now
        else if bs.offlineSince.isNone then some appStart
        else bs.offlineSince,
      reconnectCount := if bs.online then bs.reconnectCount + 1 else bs.reconnectCount }

/-- The `offline_duration` computation of `health_check`:
`(now - offline_since).total_seconds()` when `offline_since` is set,
otherwise 0. -/
def offlineDuration (offlineSince : Option Nat) (now : Nat) : Nat :=
  match offlineSince with
  | some t => now - t
  | none => 0

/-- A JSON health response: the HTTP status code and the body fields.
`Option` marks keys that are absent from some of the three bodies. -/
structure HealthResponse where
  code : Nat
  status : String
  bot_online : Bool
  error : Option String
  fatal : Option Bool
  error_time : Option (Option Nat)
  heartbeat : Option Bool
  offline_duration : Option Nat
  app_runtime : Nat
deriving DecidableEq, Repr

/-- The decision logic of the `/health` handler (lines 544-604), after
the state snapshot has been taken: a fatal error yields 503 with
`fatal: true` and the error time; otherwise an offline bot beyond the
120 s grace period yields 503 with the offline duration; otherwise 200. -/
def health_check (fatal : Option ErrorDescriptor) (errorTime : Option Nat)
    (botOnline : Bool) (offlineSince : Option Nat) (now appStart : Nat) : HealthResponse :=
  let dur := offlineDuration offlineSince now
  match fatal with
  | some d =>
      { code := 503, status := "unhealthy", bot_online := false,
        error := some ("Fatal error: " ++ d.message), fatal := some true,
        error_time := some errorTime, heartbeat := none, offline_duration := none,
        app_runtime := now - appStart }
  | none =>
      if !botOnline && dur > gracePeriod then
        { code := 503, status := "unhealthy", bot_online := false,
          error := some ("Bot offline for " ++ toString dur ++ "s (grace: 120s)"),
          fatal := none, error_time := none, heartbeat := none,
          offline_duration := some dur, app_runtime := now - appStart }
      else
        { code := 200, status := "healthy", bot_online := botOnline,
          error := none, fatal := none, error_time := none, heartbeat := some true,
          offline_duration := some dur, app_runtime := now - appStart }

/-- The full `/health` route: it first calls `update_bot_status`, then
snapshots the fatal state under `fatal_error_lock` and `bot_status`
under `bot_status_data_lock`, and runs the decision logic. -/
def healthRoute (bs : BotStatus) (fatal : Option ErrorDescriptor) (errorTime : Option Nat)
    (instanceReady : Bool) (now appStart : Nat) : HealthResponse :=
  let bs2 := update_bot_status bs fatal instanceReady now appStart
  health_check fatal errorTime bs2.online bs2.offlineSince now appStart

/-! Concrete states and environments used by the witnesses and
counterexamples below. -/

/-- A state with a missing-token fatal error recorded at second 0. -/
def sFatal0 : SupState :=
  { fatalError := some ⟨.missingToken, "Token Discord manquant"⟩,
    fatalErrorSince := some 0, retryCount := 0,
    currentHandle := false, modulesLoaded := true }

/-- An iteration environment at second 100 (before the 600 s threshold). -/
def envAt100 : IterEnv :=
  { now := 100, shutdown := false, pre := ⟨true, true, true⟩,
    outcome := .normalReturn, jitter := 1 }

/-- An iteration environment at second 601 (past the 600 s threshold). -/
def envAt601 : IterEnv :=
  { now := 601, shutdown := false, pre := ⟨true, true, true⟩,
    outcome := .normalReturn, jitter := 1 }

/-- C1: once the fatal-error descriptor is set, an iteration with
`now - fatalErrorSince <= 600` makes no connection attempt and does not
run the preflight; an iteration with `now - fatalErrorSince > 600` runs
the preflight validation. -/
theorem fatal_gate_600s (s : SupState) (env : IterEnv)
    (d : ErrorDescriptor) (t : Nat)
    (hf : s.fatalError = some d) (ht : s.fatalErrorSince = some t) :
    (env.now - t ≤ 600 →
      (supervisorStep s env).connectAttempted = false ∧
      (supervisorStep s env).preflightAttempted = false) ∧
    (env.now - t > 600 →
      (supervisorStep s env).preflightAttempted = true) := by
  constructor
  · intro hle
    have hngt : ¬ (env.now - t > 600) := by omega
    simp [supervisorStep, hf, ht, hngt]
  · intro hgt
    rcases ho : env.outcome <;>
      simp [supervisorStep, hf, ht, hgt, ho, backoffExit] <;>
      (repeat' split) <;> rfl

/-- Witness for `fatal_gate_600s` at concrete inputs: with the fatal
error recorded at second 0, at second 100 no connection attempt and no
preflight; at second 601 the preflight runs. -/
theorem fatal_gate_600s_witness :
    (supervisorStep sFatal0 envAt100).connectAttempted = false ∧
    (supervisorStep sFatal0 envAt100).preflightAttempted = false ∧
    (supervisorStep sFatal0 envAt601).preflightAttempted = true := by
  refine ⟨?_, ?_, ?_⟩
  · exact ((fatal_gate_600s sFatal0 envAt100 ⟨.missingToken, "Token Discord manquant"⟩ 0
      rfl rfl).1 (by decide)).1
  · exact ((fatal_gate_600s sFatal0 envAt100 ⟨.missingToken, "Token Discord manquant"⟩ 0
      rfl rfl).1 (by decide)).2
  · exact (fatal_gate_600s sFatal0 envAt601 ⟨.missingToken, "Token Discord manquant"⟩ 0
      rfl rfl).2 (by decide)

/-- C9: after every iteration of the supervisor loop — whatever the state
and whatever the outcome of the connection attempt — the `finally` block
has cleared `current_bot_instance`, so the published handle is null. -/
theorem handle_cleared_after_step (s : SupState) (env : IterEnv) :
    (supervisorStep s env).state.currentHandle = false := by
  rcases hf : s.fatalError with _ | d <;> rcases ht : s.fatalErrorSince with _ | t <;>
    rcases ho : env.outcome <;>
    simp [supervisorStep, hf, ht, ho, backoffExit] <;>
    (repeat' split) <;> rfl

/-- C10: if `import bot as bot_module` fails at startup, `check_token`
is never called, and the recorded fatal descriptor is the ImportFailure
one even when the token is also missing: ImportFailure takes precedence
over MissingToken, and the single `fatal_error_state` slot holds exactly
that one descriptor. -/
theorem import_failure_precedence (importRestOk tokenPresent : Bool)
    (eMsg : String) (now : Nat) :
    (startup false importRestOk tokenPresent eMsg now).tokenChecked = false ∧
    (startup false importRestOk tokenPresent eMsg now).state.fatalError =
      some ⟨.importFailure, "Import error: " ++ eMsg⟩ := by
  simp [startup]

/-- A state with no fatal error, modules loaded, retry count 0. -/
def sOk : SupState :=
  { fatalError := none, fatalErrorSince := none, retryCount := 0,
    currentHandle := false, modulesLoaded := true }

/-- A preflight environment in which every step succeeds. -/
def preOk : PreflightEnv := ⟨true, true, true⟩

/-- A preflight environment in which the login handshake raises. -/
def preLoginFails : PreflightEnv := ⟨true, true, false⟩

/-- An iteration environment whose connection attempt fails with a
transient exception, with jitter factor 1. -/
def envTransient : IterEnv :=
  { now := 50, shutdown := false, pre := preOk,
    outcome := .transientErr "Connection reset", jitter := 1 }

/-- C3: a successful preflight validation clears `fatal_error_state` and
`last_fatal_error_time` and resets `retry_count` to 0, all in the single
critical section under `fatal_error_lock` — one atomic state transition
in this model, so a reader never observes a partially cleared state; and
a preflight in which any step fails or raises leaves `fatal_error_state`
and `last_fatal_error_time` exactly as they were. -/
theorem preflight_clear_atomic (s : SupState) (d : ErrorDescriptor) (env : PreflightEnv) :
    (preflightSucceeds s d env = true →
      (runPreflight s d env).fatalError = none ∧
      (runPreflight s d env).fatalErrorSince = none ∧
      (runPreflight s d env).retryCount = 0) ∧
    (preflightSucceeds s d env = false →
      (runPreflight s d env).fatalError = s.fatalError ∧
      (runPreflight s d env).fatalErrorSince = s.fatalErrorSince) := by
  cases hc : strContains d.message "Import error" <;>
    cases hr : env.reimportOk <;> cases htok : env.tokenPresent <;>
    cases hl : env.loginOk <;> cases hm : s.modulesLoaded <;>
    simp [runPreflight, preflightSucceeds, hc, hr, htok, hl, hm]

/-- Witness for `preflight_clear_atomic`: from the concrete
missing-token fatal state, an all-green preflight clears the error, the
time and the retry count, and a preflight whose handshake raises leaves
the fatal fields untouched. -/
theorem preflight_clear_atomic_witness :
    ((runPreflight sFatal0 ⟨.missingToken, "Token Discord manquant"⟩ preOk).fatalError = none ∧
     (runPreflight sFatal0 ⟨.missingToken, "Token Discord manquant"⟩ preOk).fatalErrorSince = none ∧
     (runPreflight sFatal0 ⟨.missingToken, "Token Discord manquant"⟩ preOk).retryCount = 0) ∧
    ((runPreflight sFatal0 ⟨.missingToken, "Token Discord manquant"⟩ preLoginFails).fatalError
        = sFatal0.fatalError ∧
     (runPreflight sFatal0 ⟨.missingToken, "Token Discord manquant"⟩ preLoginFails).fatalErrorSince
        = sFatal0.fatalErrorSince) := by
  constructor
  · exact (preflight_clear_atomic sFatal0 ⟨.missingToken, "Token Discord manquant"⟩ preOk).1
      (by decide)
  · exact (preflight_clear_atomic sFatal0 ⟨.missingToken, "Token Discord manquant"⟩
      preLoginFails).2 (by decide)

/-- C2: a transient failure increments `retry_count`, and the jittered
backoff delay computed before the next attempt is
`min(2 * 2^min(retry_count, 8), 300) * jitter`; for any jitter in
[0.8, 1.2] the delay is at most 360 seconds, and the un-jittered delay is
non-decreasing in the retry count. -/
theorem transient_backoff (s : SupState) (env : IterEnv) (m : String)
    (hf : s.fatalError = none) (hm : s.modulesLoaded = true)
    (ho : env.outcome = .transientErr m) (hs : env.shutdown = false)
    (hj₁ : (4 : ℚ)/5 ≤ env.jitter) (hj₂ : env.jitter ≤ 6/5) :
    (supervisorStep s env).state.retryCount = s.retryCount + 1 ∧
    (supervisorStep s env).backoff = some (backoffDelay (s.retryCount + 1) env.jitter) ∧
    backoffDelay (s.retryCount + 1) env.jitter ≤ 360 ∧
    (∀ r₁ r₂ : ℕ, r₁ ≤ r₂ → backoffBase r₁ ≤ backoffBase r₂) := by
  have hstep : (supervisorStep s env).state.retryCount = s.retryCount + 1 ∧
      (supervisorStep s env).backoff = some (backoffDelay (s.retryCount + 1) env.jitter) := by
    rcases ht : s.fatalErrorSince <;>
      simp [supervisorStep, backoffExit, hf, ht, ho, hs, hm]
  refine ⟨hstep.1, hstep.2, ?_, ?_⟩
  · have hb : (backoffBase (s.retryCount + 1) : ℚ) ≤ 300 := by
      have h := min_le_right (baseDelay * 2 ^ (min (s.retryCount + 1) 8)) maxDelay
      unfold backoffBase
      exact_mod_cast h
    have hj0 : (0 : ℚ) ≤ env.jitter := le_trans (by norm_num) hj₁
    calc backoffDelay (s.retryCount + 1) env.jitter
        = (backoffBase (s.retryCount + 1) : ℚ) * env.jitter := rfl
      _ ≤ 300 * (6/5) := mul_le_mul hb hj₂ hj0 (by norm_num)
      _ = 360 := by norm_num
  · intro r₁ r₂ h
    unfold backoffBase
    have hpow : 2 ^ (min r₁ 8) ≤ 2 ^ (min r₂ 8) :=
      Nat.pow_le_pow_right (by norm_num) (min_le_min h (le_refl 8))
    exact min_le_min (Nat.mul_le_mul_left _ hpow) (le_refl _)

/-- Witness for `transient_backoff`: from the no-fatal state with retry
count 0 and jitter 1, a transient failure yields retry count 1 and a
computed delay of 4 seconds. -/
theorem transient_backoff_witness :
    ((4 : ℚ)/5 ≤ (1 : ℚ) ∧ (1 : ℚ) ≤ 6/5) ∧
    (supervisorStep sOk envTransient).state.retryCount = 1 ∧
    (supervisorStep sOk envTransient).backoff = some (backoffDelay 1 1) := by
  have h := transient_backoff sOk envTransient "Connection reset" rfl rfl rfl rfl
    (by norm_num [envTransient]) (by norm_num [envTransient])
  exact ⟨⟨by norm_num, by norm_num⟩, h.1, h.2.1⟩

/-- C4: for every state of the shared variables — in particular for any
`bot_status`, even one staled at `online = true` — a `/health` request
with a non-null fatal-error descriptor returns 503 with a body carrying
`status: "unhealthy"`, `fatal: true`, the error message and the error
time. -/
theorem health_fatal_503 (bs : BotStatus) (d : ErrorDescriptor) (et : Option Nat)
    (ready : Bool) (now appStart : Nat) :
    (healthRoute bs (some d) et ready now appStart).code = 503 ∧
    (healthRoute bs (some d) et ready now appStart).status = "unhealthy" ∧
    (healthRoute bs (some d) et ready now appStart).fatal = some true ∧
    (healthRoute bs (some d) et ready now appStart).error =
      some ("Fatal error: " ++ d.message) ∧
    (healthRoute bs (some d) et ready now appStart).error_time = some et := by
  simp [healthRoute, health_check]

/-- The offline duration that the `/health` handler computes after
`update_bot_status` has run with no fatal error and a not-ready bot. -/
def offlineAfterUpdate (bs : BotStatus) (now appStart : Nat) : Nat :=
  offlineDuration (update_bot_status bs none false now appStart).offlineSince now

/-- C5: with no fatal error and the bot offline, `/health` returns 200
while the offline duration is at most the 120 s grace period (the
boundary at exactly 120 is healthy) and 503 once it exceeds 120; and for
a bot that has never been online the offline duration is measured from
process start (`offline_since` defaults to `app_start_time`). -/
theorem health_offline_grace (bs : BotStatus) (now appStart : Nat) :
    (offlineAfterUpdate bs now appStart ≤ 120 →
      (healthRoute bs none none false now appStart).code = 200) ∧
    (120 < offlineAfterUpdate bs now appStart →
      (healthRoute bs none none false now appStart).code = 503) ∧
    (bs.online = false → bs.offlineSince = none →
      offlineAfterUpdate bs now appStart = now - appStart) := by
  have honline : (update_bot_status bs none false now appStart).online = false := by
    simp [update_bot_status]
  refine ⟨?_, ?_, ?_⟩
  · intro h
    have hn : ¬ (120 <
        offlineDuration (update_bot_status bs none false now appStart).offlineSince now) := by
      unfold offlineAfterUpdate at h; omega
    simp [healthRoute, health_check, gracePeriod, honline, hn]
  · intro h
    have hp : 120 <
        offlineDuration (update_bot_status bs none false now appStart).offlineSince now := by
      unfold offlineAfterUpdate at h; omega
    simp [healthRoute, health_check, gracePeriod, honline, hp]
  · intro h1 h2
    unfold offlineAfterUpdate
    simp [update_bot_status, offlineDuration, h1, h2]

/-- A never-online bot status, as initialised by `run_web_server`. -/
def bsStart : BotStatus :=
  { online := false, firstOnlineTime := none, offlineSince := none, reconnectCount := 0 }

/-- Witness for `health_offline_grace`: with process start at second 0,
at second 100 the never-online bot is within the grace period and
`/health` is 200; at second 121 it is beyond it and `/health` is 503;
and its offline duration is exactly the time since process start. -/
theorem health_offline_grace_witness :
    (healthRoute bsStart none none false 100 0).code = 200 ∧
    (healthRoute bsStart none none false 121 0).code = 503 ∧
    offlineAfterUpdate bsStart 121 0 = 121 := by
  refine ⟨?_, ?_, ?_⟩
  · exact (health_offline_grace bsStart 100 0).1 (by decide)
  · exact (health_offline_grace bsStart 121 0).2.1 (by decide)
  · exact (health_offline_grace bsStart 121 0).2.2 rfl rfl

/-- An iteration environment whose connection attempt returns normally. -/
def envNormalRet : IterEnv :=
  { now := 50, shutdown := false, pre := preOk,
    outcome := .normalReturn, jitter := 1 }

/-- C6 counterexample: from the clean state, when `run` returns normally
(and no shutdown is requested) the supervisor does *not* treat it as a
transient failure — `retry_count` stays 0 instead of being incremented,
no backoff delay is computed and nothing is slept before the next
attempt. -/
theorem normal_return_counterexample :
    (supervisorStep sOk envNormalRet).state.retryCount = 0 ∧
    (supervisorStep sOk envNormalRet).backoff = none ∧
    (supervisorStep sOk envNormalRet).sleptSeconds = 0 :=
  ⟨rfl, rfl, rfl⟩

/-- C6 amended: when the blocking `run` call returns normally with no
shutdown requested, the supervisor loops straight back into a new
connection attempt with no `retry_count` increment, no backoff delay and
no sleep, and without exiting the loop. -/
theorem normal_return_immediate_retry (s : SupState) (env : IterEnv)
    (hf : s.fatalError = none) (hm : s.modulesLoaded = true)
    (ho : env.outcome = .normalReturn) :
    (supervisorStep s env).connectAttempted = true ∧
    (supervisorStep s env).state.retryCount = s.retryCount ∧
    (supervisorStep s env).backoff = none ∧
    (supervisorStep s env).sleptSeconds = 0 ∧
    (supervisorStep s env).breaks = false := by
  rcases ht : s.fatalErrorSince <;> simp [supervisorStep, hf, ht, ho, hm]

/-- Witness for `normal_return_immediate_retry` at the clean state. -/
theorem normal_return_immediate_retry_witness :
    (supervisorStep sOk envNormalRet).connectAttempted = true ∧
    (supervisorStep sOk envNormalRet).state.retryCount = sOk.retryCount ∧
    (supervisorStep sOk envNormalRet).backoff = none ∧
    (supervisorStep sOk envNormalRet).sleptSeconds = 0 ∧
    (supervisorStep sOk envNormalRet).breaks = false :=
  normal_return_immediate_retry sOk envNormalRet rfl rfl rfl

/-- A clean state whose retry count is already 1 (one earlier transient
failure). -/
def sRetry1 : SupState :=
  { fatalError := none, fatalErrorSince := none, retryCount := 1,
    currentHandle := false, modulesLoaded := true }

/-- An iteration environment at second 60 whose connection attempt
returns normally. -/
def envNormalRet60 : IterEnv :=
  { now := 60, shutdown := false, pre := preOk,
    outcome := .normalReturn, jitter := 1 }

/-- C7 counterexample: `retry_count` is *not* reset on a successful
connection: after one transient failure (`retry_count = 1`), a
connection attempt that runs and ends normally leaves `retry_count`
at 1, not 0. -/
theorem retry_no_reset_on_success_counterexample :
    (supervisorStep sRetry1 envNormalRet60).connectAttempted = true ∧
    (supervisorStep sRetry1 envNormalRet60).state.retryCount = 1 :=
  ⟨rfl, rfl⟩

/-- C7 amended: `retry_count` counts transient failures — each transient
failure increments it — and it is reset to 0 only by fatal-error
clearance (a successful recovery preflight); a successful connection
that ends normally leaves it unchanged. -/
theorem retry_reset_only_on_clearance (s sp : SupState) (d : ErrorDescriptor)
    (p : PreflightEnv) (env : IterEnv) (m : String)
    (hf : s.fatalError = none) (hm : s.modulesLoaded = true)
    (hs : env.shutdown = false) :
    (preflightSucceeds sp d p = true → (runPreflight sp d p).retryCount = 0) ∧
    (env.outcome = .transientErr m →
      (supervisorStep s env).state.retryCount = s.retryCount + 1) ∧
    (env.outcome = .normalReturn →
      (supervisorStep s env).state.retryCount = s.retryCount) := by
  refine ⟨fun h => ((preflight_clear_atomic sp d p).1 h).2.2, ?_, ?_⟩
  · intro ho
    rcases ht : s.fatalErrorSince <;>
      simp [supervisorStep, backoffExit, hf, ht, ho, hs, hm]
  · intro ho
    rcases ht : s.fatalErrorSince <;> simp [supervisorStep, hf, ht, ho, hm]

/-- Witness for `retry_reset_only_on_clearance` at concrete inputs. -/
theorem retry_reset_only_on_clearance_witness :
    (runPreflight sFatal0 ⟨.missingToken, "Token Discord manquant"⟩ preOk).retryCount = 0 ∧
    (supervisorStep sOk envTransient).state.retryCount = 1 := by
  have h := retry_reset_only_on_clearance sOk sFatal0
    ⟨.missingToken, "Token Discord manquant"⟩ preOk envTransient "Connection reset"
    rfl rfl rfl
  exact ⟨h.1 (by decide), h.2.1 rfl⟩

/-- C8: an exception caught by the `except BotConfigurationError` clause
records a ConfigurationError fatal descriptor with
`last_fatal_error_time = now`, and a `LoginFailure` caught by the
generic clause records an InvalidToken fatal descriptor likewise; in
both cases `retry_count` is not incremented and no `break` is executed,
so the loop re-enters the fatal-state handling on its next iteration
instead of terminating. -/
theorem fatal_classification (s : SupState) (env : IterEnv) (m : String)
    (hf : s.fatalError = none) (hm : s.modulesLoaded = true)
    (hs : env.shutdown = false) :
    (env.outcome = .configErr m →
      (supervisorStep s env).state.fatalError =
        some ⟨.configurationError, "Configuration error: " ++ m⟩ ∧
      (supervisorStep s env).state.fatalErrorSince = some env.now ∧
      (supervisorStep s env).state.retryCount = s.retryCount ∧
      (supervisorStep s env).breaks = false) ∧
    (env.outcome = .loginFailure m →
      (supervisorStep s env).state.fatalError =
        some ⟨.invalidToken, "Invalid token: " ++ m⟩ ∧
      (supervisorStep s env).state.fatalErrorSince = some env.now ∧
      (supervisorStep s env).state.retryCount = s.retryCount ∧
      (supervisorStep s env).breaks = false) := by
  constructor
  · intro ho
    rcases ht : s.fatalErrorSince <;> simp [supervisorStep, hf, ht, ho, hm]
  · intro ho
    rcases ht : s.fatalErrorSince <;>
      simp [supervisorStep, backoffExit, hf, ht, ho, hs, hm]

/-- An iteration environment whose connection attempt raises into the
`except BotConfigurationError` clause. -/
def envConfigErr : IterEnv :=
  { now := 70, shutdown := false, pre := preOk,
    outcome := .configErr "intents required", jitter := 1 }

/-- An iteration environment whose connection attempt raises a
`LoginFailure`. -/
def envLoginFail : IterEnv :=
  { now := 80, shutdown := false, pre := preOk,
    outcome := .loginFailure "Improper token", jitter := 1 }

/-- Witness for `fatal_classification` at concrete inputs. -/
theorem fatal_classification_witness :
    ((supervisorStep sOk envConfigErr).state.fatalError =
      some ⟨.configurationError, "Configuration error: intents required"⟩ ∧
     (supervisorStep sOk envConfigErr).state.fatalErrorSince = some 70 ∧
     (supervisorStep sOk envConfigErr).state.retryCount = 0 ∧
     (supervisorStep sOk envConfigErr).breaks = false) ∧
    ((supervisorStep sOk envLoginFail).state.fatalError =
      some ⟨.invalidToken, "Invalid token: Improper token"⟩ ∧
     (supervisorStep sOk envLoginFail).state.fatalErrorSince = some 80 ∧
     (supervisorStep sOk envLoginFail).state.retryCount = 0 ∧
     (supervisorStep sOk envLoginFail).breaks = false) := by
  constructor
  · exact (fatal_classification sOk envConfigErr "intents required" rfl rfl rfl).1 rfl
  · exact (fatal_classification sOk envLoginFail "Improper token" rfl rfl rfl).2 rfl

end BotSupervisor
